import Mathlib

/-
  Verification of the Analytical Punch trading-bot core against its
  natural-language specification.

  The frontend components under src/frontend are embedded directly from the
  JSX source.  The backend orchestration core (BotRegistry, BotController,
  SafetyManager, paper ExchangeGateway, PersistenceStore) is not part of the
  visible sources; those parts are modelled from the specification text, as
  marked on each definition.

  JavaScript numbers produced by parseFloat are modelled as Option Rat:
  some v is an ordinary finite value, none is NaN.  Every JS comparison on a
  NaN operand is false, which the jsLe and jsGt helpers reproduce.
-/

namespace AnalyticalPunch

/-! ## Bot lifecycle action buttons

Embeds renderBotActions from src/frontend/src/components/Trading/BotList.jsx
(lines 27-100) and getActionButtons from BotDetails.jsx (lines 57-107).
The frontend dispatches on the raw status string of a bot. -/

/-- Embedding of renderBotActions in BotList.jsx: the list of lifecycle
actions offered on a bot card, in render order. -/
def renderBotActions (status : String) : List String :=
  (if status = "stopped" then ["start"] else []) ++
  (if status = "running" then ["pause", "stop"] else []) ++
  (if status = "paused" then ["resume", "stop"] else [])

/-- Embedding of getActionButtons in BotDetails.jsx: the list of lifecycle
actions offered on the details page, in render order. -/
def getActionButtons (status : String) : List String :=
  if status = "stopped" then ["start"]
  else if status = "running" then ["pause", "stop"]
  else if status = "paused" then ["resume", "stop"]
  else []

/-- The command-availability table of the specification state machine
(section 4.1): start from STOPPED or ERROR, pause only from RUNNING,
resume only from PAUSED, stop from any active non-terminal state.
Written from the wording of the spec, to be compared with the
frontend tables above. -/
def specLifecycleCommands (status : String) : List String :=
  if status = "stopped" then ["start"]
  else if status = "error" then ["start"]
  else if status = "running" then ["pause", "stop"]
  else if status = "paused" then ["resume", "stop"]
  else if status = "starting" then ["stop"]
  else []

/-! ## Bot creation form

Embeds the BotCreator component, src/frontend/src/components/Trading/BotCreator.jsx. -/

/-- JS String.prototype.trim: drop leading and trailing whitespace.
Defined on the character list so that it evaluates by kernel reduction. -/
def jsTrim (s : String) : String :=
  String.mk (((s.data.dropWhile Char.isWhitespace).reverse.dropWhile Char.isWhitespace).reverse)

/-- JS String.prototype.toUpperCase, on the character list. -/
def jsToUpper (s : String) : String :=
  String.mk (s.data.map Char.toUpper)

/-- JS comparison x <= bound on a possibly-NaN number: false on NaN. -/
def jsLe (x : Option ℚ) (bound : ℚ) : Bool :=
  match x with
  | none => false
  | some v => v ≤ bound

/-- JS comparison x > bound on a possibly-NaN number: false on NaN. -/
def jsGt (x : Option ℚ) (bound : ℚ) : Bool :=
  match x with
  | none => false
  | some v => bound < v

/-- The BotCreator form state (BotCreator.jsx lines 4-15).  Numeric fields
hold Option Rat because handleInputChange stores parseFloat of the raw
input, which is NaN (here none) when the field is cleared. -/
structure BotForm where
  name : String
  symbols : List String
  timeframes : List String
  paper_trading : Bool
  initial_capital : Option ℚ
  max_position_size : Option ℚ
  max_daily_loss : Option ℚ
  max_drawdown : Option ℚ
  max_open_positions : Option ℚ
deriving DecidableEq

/-- Embedding of validateForm (BotCreator.jsx lines 83-116): the list of
error keys set on the newErrors object, in check order. -/
def validateForm (f : BotForm) : List String :=
  (if jsTrim f.name = "" then ["name"] else []) ++
  (if f.symbols.length = 0 then ["symbols"] else []) ++
  (if f.timeframes.length = 0 then ["timeframes"] else []) ++
  (if jsLe f.initial_capital 0 then ["initial_capital"] else []) ++
  (if jsLe f.max_position_size 0 || jsGt f.max_position_size 1 then ["max_position_size"] else []) ++
  (if jsLe f.max_daily_loss 0 || jsGt f.max_daily_loss 1 then ["max_daily_loss"] else []) ++
  (if jsLe f.max_drawdown 0 || jsGt f.max_drawdown 1 then ["max_drawdown"] else [])

/-- Embedding of handleSubmit (BotCreator.jsx lines 118-133): returns the
config passed to onBotCreate, or none when validateForm found errors and
handleSubmit returned early without invoking onBotCreate. -/
def handleSubmit (f : BotForm) : Option BotForm :=
  if validateForm f = [] then some f else none

/-! ## Symbol list operations

Embeds handleSymbolToggle, handleAddCustomSymbol and handleRemoveSymbol
(BotCreator.jsx lines 48-72), acting on the symbols list of the form. -/

/-- Embedding of handleSymbolToggle: remove the symbol if present,
otherwise append it. -/
def handleSymbolToggle (symbols : List String) (symbol : String) : List String :=
  if symbols.contains symbol then symbols.filter (fun s => s != symbol)
  else symbols ++ [symbol]

/-- Embedding of handleAddCustomSymbol: when the trimmed input is nonempty
and its upper-cased form is not already present, append the trimmed
upper-cased symbol. -/
def handleAddCustomSymbol (symbols : List String) (customSymbol : String) : List String :=
  if jsTrim customSymbol ≠ "" && !(symbols.contains (jsToUpper (jsTrim customSymbol))) then
    symbols ++ [jsToUpper (jsTrim customSymbol)]
  else symbols

/-- Embedding of handleRemoveSymbol: remove the symbol from the list. -/
def handleRemoveSymbol (symbols : List String) (symbol : String) : List String :=
  symbols.filter (fun s => s != symbol)

/-- One user interaction with the symbols section of the form. -/
inductive SymbolOp where
  | toggle (symbol : String)
  | addCustom (customSymbol : String)
  | remove (symbol : String)

/-- Apply one symbol operation to the current symbols list. -/
def applySymbolOp (symbols : List String) : SymbolOp → List String
  | .toggle s => handleSymbolToggle symbols s
  | .addCustom c => handleAddCustomSymbol symbols c
  | .remove s => handleRemoveSymbol symbols s

/-- Apply a sequence of symbol operations, first operation first. -/
def applySymbolOps (symbols : List String) : List SymbolOp → List String
  | [] => symbols
  | op :: rest => applySymbolOps (applySymbolOp symbols op) rest

/-- The initial symbols of the form state (BotCreator.jsx line 7). -/
def initialSymbols : List String := ["BTC-USD", "ETH-USD"]

/-! ## Alert center

Embeds AlertCenter, third component of
src/frontend/src/components/Trading/BotList.jsx (lines 382-546). -/

/-- An alert as rendered by AlertCenter. -/
structure Alert where
  id : Nat
  bot_id : Option String
  level : String
  alert_type : String
  message : String
  acknowledged : Bool
deriving DecidableEq

/-- The filter predicate inside filteredAlerts (BotList.jsx lines 416-420). -/
def alertMatchesFilter (filter : String) (a : Alert) : Bool :=
  if filter = "all" then true
  else if filter = "unacknowledged" then !a.acknowledged
  else a.level == filter

/-- Embedding of filteredAlerts: the alerts shown for the selected filter. -/
def filteredAlerts (filter : String) (alerts : List Alert) : List Alert :=
  alerts.filter (alertMatchesFilter filter)

/-- Guard of the acknowledge button block (BotList.jsx lines 519-528):
the action is rendered only when the alert is not yet acknowledged. -/
def showAcknowledgeAction (a : Alert) : Bool :=
  !a.acknowledged

/-! ## Dashboard bot-list loading

BotList.jsx carries two embedded TradingDashboard components with different
loadDashboardData implementations (lines 569-588 and 770-792). -/

/-- A bot record as listed by the trading API. -/
structure BotRecord where
  bot_id : String
  name : String
  status : String
deriving DecidableEq

/-- The JSON body returned by the bots endpoint: either a plain array of
bots, or an object carrying the array under a bots field. -/
inductive BotsApiResponse where
  | arrayOfBots (bots : List BotRecord)
  | objectWithBots (bots : List BotRecord)
deriving DecidableEq

/-- JS property access botsData.bots: a plain array has no bots field, so
the access yields undefined (none); on the object form it yields the
array. -/
def botsFieldOf : BotsApiResponse → Option (List BotRecord)
  | .arrayOfBots _ => none
  | .objectWithBots bots => some bots

/-- First embedded TradingDashboard (BotList.jsx line 573): setBots
receives botsData.bots with a fallback empty array, so the displayed list
is botsData.bots when defined and empty otherwise. -/
def firstDashboardBots (resp : BotsApiResponse) : List BotRecord :=
  (botsFieldOf resp).getD []

/-- Second embedded TradingDashboard (BotList.jsx line 775): setBots
receives botsData itself; the stored value renders as a bot list exactly
when the response was a plain array. -/
def secondDashboardBots : BotsApiResponse → Option (List BotRecord)
  | .arrayOfBots bots => some bots
  | .objectWithBots _ => none

/-! ## Backend lifecycle core, modelled from the spec

The BotRegistry, BotController, SafetyManager, ExchangeGateway and
PersistenceStore sources are not in the visible repository; only their
documentation is.  The definitions below are modelled from the
specification text (sections 4 and 5) and marked as such. -/

/-- The closed status enum of section 4.1 and the backend BotStatus enum
documented in the repository notes. -/
inductive BotStatus where
  | stopped
  | starting
  | running
  | paused
  | error
deriving DecidableEq

/-- In-memory state of one bot: its resting status and the number of live
loop tasks attached to it. -/
structure ControllerState where
  status : BotStatus
  loopTasks : Nat
deriving DecidableEq

/-- A lifecycle command routed through BotRegistry.command. -/
inductive LifecycleCmd where
  | start
  | stop
  | pause
  | resume
deriving DecidableEq

/-- Modelled from the spec: BotController lifecycle handling, missing from
the visible sources (section 4.1).  start is a no-op when already
STARTING or RUNNING; from STOPPED or ERROR it passes through STARTING to
RUNNING and begins one loop task.  stop cancels and joins the loop before
reporting STOPPED.  pause and resume switch RUNNING and PAUSED and keep
the loop task alive.  Section 5 serializes the commands of one bot id, so
a command acts atomically on the controller state. -/
def applyCmd (cmd : LifecycleCmd) (c : ControllerState) : ControllerState :=
  match cmd with
  | .start =>
    match c.status with
    | .starting | .running | .paused => c
    | .stopped | .error => { status := .running, loopTasks := c.loopTasks + 1 }
  | .stop =>
    match c.status with
    | .stopped | .error => c
    | .starting | .running | .paused => { status := .stopped, loopTasks := c.loopTasks - 1 }
  | .pause =>
    match c.status with
    | .running => { c with status := .paused }
    | _ => c
  | .resume =>
    match c.status with
    | .paused => { c with status := .running }
    | _ => c

/-- Run a serialized sequence of lifecycle commands, first command first. -/
def applyCmds (cmds : List LifecycleCmd) (c : ControllerState) : ControllerState :=
  match cmds with
  | [] => c
  | cmd :: rest => applyCmds rest (applyCmd cmd c)

/-- A freshly created bot: STOPPED with no loop task. -/
def initialController : ControllerState :=
  { status := .stopped, loopTasks := 0 }

/-- The loop-task invariant: a RUNNING or PAUSED bot owns exactly one loop
task, and a resting bot owns none. -/
def controllerInv (c : ControllerState) : Prop :=
  ((c.status = .running ∨ c.status = .paused) → c.loopTasks = 1) ∧
  ((c.status = .stopped ∨ c.status = .error ∨ c.status = .starting) → c.loopTasks = 0)

/-- A persisted bot record as found in the database after a restart:
its identity and its status at the last checkpoint. -/
structure PersistedBot where
  botId : String
  lastStatus : BotStatus
deriving DecidableEq

/-- Modelled from the spec: reconstruction of one bot on process start
(section 4.4 restart behavior, missing from the visible sources).  The
reconstructed controller is STOPPED with no loop task regardless of the
persisted status. -/
def reconstructController (_p : PersistedBot) : ControllerState :=
  { status := .stopped, loopTasks := 0 }

/-- Modelled from the spec: BotRegistry reconstructs a controller entry
for every persisted bot on process start, auto-resuming none. -/
def registryRestart (ps : List PersistedBot) : List (String × ControllerState) :=
  ps.map (fun p => (p.botId, reconstructController p))

/-! ## SafetyManager drawdown tracking, modelled from the spec

Section 4.2: the SafetyManager keeps an equity high-water mark and
computes drawdown from it. -/

/-- Modelled from the spec: the high-water mark after observing a new
equity value never moves down (SafetyManager state, missing from the
visible sources). -/
def updatedPeak (peak equity : ℚ) : ℚ :=
  max peak equity

/-- Modelled from the spec: drawdown is (peak minus current) over peak,
clamped to be nonnegative. -/
def drawdown (peak equity : ℚ) : ℚ :=
  max 0 ((peak - equity) / peak)

/-- The running sequence of high-water marks along an equity history,
starting from an initial peak. -/
def equityPeaks (peak : ℚ) (history : List ℚ) : List ℚ :=
  match history with
  | [] => []
  | e :: rest => updatedPeak peak e :: equityPeaks (updatedPeak peak e) rest

/-- The drawdown reported at each point of an equity history, each
computed against the high-water mark updated with that observation. -/
def drawdownSeries (peak : ℚ) (history : List ℚ) : List ℚ :=
  match history with
  | [] => []
  | e :: rest => drawdown (updatedPeak peak e) e :: drawdownSeries (updatedPeak peak e) rest

/-! ## Paper ExchangeGateway, modelled from the spec

Section 4.3: the paper implementation fills synthetically against the
latest known price with a configured slippage percentage and fee model,
and always either fully fills or rejects. -/

/-- Order side. -/
inductive OrderSide where
  | buy
  | sell
deriving DecidableEq

/-- The order status enum of the data model (section 3). -/
inductive OrderStatus where
  | pending
  | filled
  | partialFill
  | rejected
  | cancelled
deriving DecidableEq

/-- An order submitted to the gateway. -/
structure PaperOrder where
  symbol : String
  side : OrderSide
  requestedSize : ℚ
deriving DecidableEq

/-- The result returned by ExchangeGateway.submit. -/
structure OrderResult where
  status : OrderStatus
  fillPrice : ℚ
  fee : ℚ
  filledSize : ℚ
deriving DecidableEq

/-- Modelled from the spec: the paper ExchangeGateway submit, missing from
the visible sources (section 4.3).  An order with a nonpositive size is
rejected; otherwise it fully fills against the latest known price moved
against the taker by the slippage percentage, with a proportional fee. -/
def paperSubmit (lastPrice slippage feeRate : ℚ) (o : PaperOrder) : OrderResult :=
  if o.requestedSize ≤ 0 then
    { status := .rejected, fillPrice := 0, fee := 0, filledSize := 0 }
  else
    match o.side with
    | .buy =>
      { status := .filled
        fillPrice := lastPrice * (1 + slippage)
        fee := lastPrice * (1 + slippage) * o.requestedSize * feeRate
        filledSize := o.requestedSize }
    | .sell =>
      { status := .filled
        fillPrice := lastPrice * (1 - slippage)
        fee := lastPrice * (1 - slippage) * o.requestedSize * feeRate
        filledSize := o.requestedSize }

/-! ## Theorems -/

/-- C3 counterexample: in the error state the frontend offers no lifecycle
command at all, although the claimed state machine offers start from
ERROR; both frontend action tables disagree with the spec table there. -/
theorem c3_error_state_counterexample :
    renderBotActions ("error") ≠ specLifecycleCommands ("error") ∧
    getActionButtons ("error") ≠ specLifecycleCommands ("error") ∧
    renderBotActions ("error") = [] := by
  decide

/-- C3 (amended): the commands offered by the frontend follow the
restricted table: start only from stopped, pause only from running,
resume only from paused, stop only from running or paused; the details
page agrees with the list page, and no other command is ever offered.
The error and starting states offer no command. -/
theorem c3_offered_actions_follow_restricted_table (s : String) :
    ("start" ∈ renderBotActions s ↔ s = "stopped") ∧
    ("pause" ∈ renderBotActions s ↔ s = "running") ∧
    ("resume" ∈ renderBotActions s ↔ s = "paused") ∧
    ("stop" ∈ renderBotActions s ↔ (s = "running" ∨ s = "paused")) ∧
    getActionButtons s = renderBotActions s ∧
    (∀ a ∈ renderBotActions s, a = "start" ∨ a = "pause" ∨ a = "resume" ∨ a = "stop") := by
  rcases eq_or_ne s "stopped" with h1 | h1
  · subst h1; decide
  rcases eq_or_ne s "running" with h2 | h2
  · subst h2; decide
  rcases eq_or_ne s "paused" with h3 | h3
  · subst h3; decide
  simp [renderBotActions, getActionButtons, h1, h2, h3]

/-- C3 witness: the amended table evaluated in the running state. -/
theorem c3_offered_actions_witness :
    ("pause" : String) = "start" ∨ ("pause" : String) = "pause" ∨
    ("pause" : String) = "resume" ∨ ("pause" : String) = "stop" :=
  (c3_offered_actions_follow_restricted_table ("running")).2.2.2.2.2 ("pause") (by decide)

/-- C4: a form violating any creation constraint with an actual numeric
value is rejected synchronously: validateForm reports at least one error
and handleSubmit never invokes onBotCreate. -/
theorem c4_invalid_config_rejected (f : BotForm)
    (h : f.name = "" ∨ f.symbols = [] ∨ f.timeframes = [] ∨
        (∃ v, f.initial_capital = some v ∧ v ≤ 0) ∨
        (∃ v, f.max_position_size = some v ∧ (v ≤ 0 ∨ 1 < v)) ∨
        (∃ v, f.max_daily_loss = some v ∧ (v ≤ 0 ∨ 1 < v)) ∨
        (∃ v, f.max_drawdown = some v ∧ (v ≤ 0 ∨ 1 < v))) :
    validateForm f ≠ [] ∧ handleSubmit f = none := by
  have hne : validateForm f ≠ [] := by
    intro h0
    simp only [validateForm, List.append_eq_nil] at h0
    obtain ⟨⟨⟨⟨⟨⟨hn, hs⟩, ht⟩, hc⟩, hp⟩, hd⟩, hw⟩ := h0
    rcases h with h | h | h | ⟨v, hv, hb⟩ | ⟨v, hv, hb⟩ | ⟨v, hv, hb⟩ | ⟨v, hv, hb⟩
    · simp [h, jsTrim] at hn
    · simp [h] at hs
    · simp [h] at ht
    · simp [jsLe, hv, hb] at hc
    · rcases hb with hb | hb
      · simp [jsLe, jsGt, hv, hb] at hp
      · simp [jsLe, jsGt, hv, hb] at hp
    · rcases hb with hb | hb
      · simp [jsLe, jsGt, hv, hb] at hd
      · simp [jsLe, jsGt, hv, hb] at hd
    · rcases hb with hb | hb
      · simp [jsLe, jsGt, hv, hb] at hw
      · simp [jsLe, jsGt, hv, hb] at hw
  exact ⟨hne, by simp [handleSubmit, hne]⟩

/-- A concrete invalid form: empty name, all other fields valid. -/
def emptyNameForm : BotForm :=
  { name := ""
    symbols := ["BTC-USD"]
    timeframes := ["1h"]
    paper_trading := true
    initial_capital := some 10000
    max_position_size := some (1 / 10)
    max_daily_loss := some (1 / 20)
    max_drawdown := some (3 / 20)
    max_open_positions := some 5 }

/-- C4 witness: the empty-name form is rejected. -/
theorem c4_invalid_config_rejected_witness :
    validateForm emptyNameForm ≠ [] ∧ handleSubmit emptyNameForm = none :=
  c4_invalid_config_rejected emptyNameForm (Or.inl rfl)

/-- A form whose initial_capital field was cleared: parseFloat of the
empty input is NaN, modelled as none.  Every other field is valid. -/
def nanCapitalForm : BotForm :=
  { name := "My Bot"
    symbols := ["BTC-USD"]
    timeframes := ["1h"]
    paper_trading := true
    initial_capital := none
    max_position_size := some 1
    max_daily_loss := some 1
    max_drawdown := some 1
    max_open_positions := some 5 }

/-- C5: the NaN-capital form passes validateForm with no error and is
submitted to onBotCreate, because NaN fails both bound comparisons; and
validateForm never inspects max_open_positions at all. -/
theorem c5_nan_number_passes_validation :
    validateForm nanCapitalForm = [] ∧
    handleSubmit nanCapitalForm = some nanCapitalForm ∧
    (∀ (f : BotForm) (n : Option ℚ),
      validateForm { f with max_open_positions := n } = validateForm f) := by
  refine ⟨by decide, by decide, fun f n => rfl⟩

/-- C8: alert filtering is exact.  The unacknowledged filter keeps exactly
the alerts not yet acknowledged, each level filter keeps exactly the
alerts of that level, the all filter keeps everything, and the
acknowledge action is offered exactly for unacknowledged alerts. -/
theorem c8_alert_filtering_exact (alerts : List Alert) (a : Alert) :
    (a ∈ filteredAlerts ("unacknowledged") alerts ↔ a ∈ alerts ∧ a.acknowledged = false) ∧
    (a ∈ filteredAlerts ("emergency") alerts ↔ a ∈ alerts ∧ a.level = "emergency") ∧
    (a ∈ filteredAlerts ("critical") alerts ↔ a ∈ alerts ∧ a.level = "critical") ∧
    (a ∈ filteredAlerts ("warning") alerts ↔ a ∈ alerts ∧ a.level = "warning") ∧
    filteredAlerts ("all") alerts = alerts ∧
    (showAcknowledgeAction a = true ↔ a.acknowledged = false) := by
  refine ⟨?_, ?_, ?_, ?_, ?_, ?_⟩
  · simp [filteredAlerts, alertMatchesFilter, List.mem_filter]
  · simp [filteredAlerts, alertMatchesFilter, List.mem_filter]
  · simp [filteredAlerts, alertMatchesFilter, List.mem_filter]
  · simp [filteredAlerts, alertMatchesFilter, List.mem_filter]
  · exact List.filter_eq_self.mpr (fun x _ => by simp [alertMatchesFilter])
  · simp [showAcknowledgeAction]

/-- C9: on an API response that is a plain array of bots, the first
embedded TradingDashboard displays an empty list, while the second
displays the array itself. -/
theorem c9_array_response_display (bots : List BotRecord) :
    firstDashboardBots (BotsApiResponse.arrayOfBots bots) = [] ∧
    secondDashboardBots (BotsApiResponse.arrayOfBots bots) = some bots :=
  ⟨rfl, rfl⟩

/-- Toggling a symbol keeps the list duplicate-free. -/
theorem nodup_handleSymbolToggle (symbols : List String) (s : String)
    (h : symbols.Nodup) : (handleSymbolToggle symbols s).Nodup := by
  unfold handleSymbolToggle
  split
  · exact h.filter _
  · rename_i hc
    have hs : s ∉ symbols := by
      intro hmem
      exact hc (List.elem_iff.mpr hmem)
    simp [List.nodup_append, h, hs]

/-- Adding a custom symbol keeps the list duplicate-free. -/
theorem nodup_handleAddCustomSymbol (symbols : List String) (c : String)
    (h : symbols.Nodup) : (handleAddCustomSymbol symbols c).Nodup := by
  unfold handleAddCustomSymbol
  split
  · rename_i hc
    have hs : jsToUpper (jsTrim c) ∉ symbols := by
      intro hmem
      rcases Bool.and_eq_true _ _ |>.mp hc with ⟨_, hnc⟩
      simp at hnc
      exact hnc hmem
    simp [List.nodup_append, h, hs]
  · exact h

/-- Removing a symbol keeps the list duplicate-free. -/
theorem nodup_handleRemoveSymbol (symbols : List String) (s : String)
    (h : symbols.Nodup) : (handleRemoveSymbol symbols s).Nodup :=
  h.filter _

/-- Every single symbol operation keeps the list duplicate-free. -/
theorem nodup_applySymbolOp (symbols : List String) (op : SymbolOp)
    (h : symbols.Nodup) : (applySymbolOp symbols op).Nodup := by
  cases op with
  | toggle s => exact nodup_handleSymbolToggle symbols s h
  | addCustom c => exact nodup_handleAddCustomSymbol symbols c h
  | remove s => exact nodup_handleRemoveSymbol symbols s h

/-- Duplicate-freedom is preserved along any operation sequence. -/
theorem nodup_applySymbolOps (ops : List SymbolOp) :
    ∀ symbols : List String, symbols.Nodup → (applySymbolOps symbols ops).Nodup := by
  induction ops with
  | nil => exact fun _ h => h
  | cons op rest ih =>
    intro symbols h
    exact ih _ (nodup_applySymbolOp symbols op h)

/-- C10: starting from the initial form state, any sequence of symbol
operations leaves the symbols list duplicate-free, and adding a custom
symbol stores exactly the trimmed upper-cased input or nothing. -/
theorem c10_symbols_nodup_invariant (ops : List SymbolOp) :
    (applySymbolOps initialSymbols ops).Nodup ∧
    (∀ (symbols : List String) (c : String),
      handleAddCustomSymbol symbols c = symbols ∨
      handleAddCustomSymbol symbols c = symbols ++ [jsToUpper (jsTrim c)]) := by
  constructor
  · exact nodup_applySymbolOps ops initialSymbols (by decide)
  · intro symbols c
    unfold handleAddCustomSymbol
    split
    · exact Or.inr rfl
    · exact Or.inl rfl

/-- Every lifecycle command preserves the loop-task invariant. -/
theorem applyCmd_preserves_inv (cmd : LifecycleCmd) (c : ControllerState)
    (h : controllerInv c) : controllerInv (applyCmd cmd c) := by
  obtain ⟨h1, h2⟩ := h
  cases cmd <;> cases hst : c.status <;>
    simp only [applyCmd, controllerInv, hst] at h1 h2 ⊢ <;>
    simp_all

/-- The loop-task invariant holds after any serialized command sequence. -/
theorem applyCmds_preserves_inv (cmds : List LifecycleCmd) :
    ∀ c : ControllerState, controllerInv c → controllerInv (applyCmds cmds c) := by
  induction cmds with
  | nil => exact fun _ h => h
  | cons cmd rest ih =>
    intro c h
    exact ih _ (applyCmd_preserves_inv cmd c h)

/-- C2: along every serialized sequence of lifecycle commands from a fresh
bot, at most one loop task is ever attached to the bot, and start on an
already running controller returns the same state, spawning nothing. -/
theorem c2_single_loop_task :
    (∀ cmds : List LifecycleCmd, (applyCmds cmds initialController).loopTasks ≤ 1) ∧
    (∀ c : ControllerState, c.status = BotStatus.running →
      applyCmd LifecycleCmd.start c = c) := by
  constructor
  · intro cmds
    have h := applyCmds_preserves_inv cmds initialController (by simp [controllerInv, initialController])
    obtain ⟨h1, h2⟩ := h
    cases hst : (applyCmds cmds initialController).status <;> simp_all
  · intro c h
    simp [applyCmd, h]

/-- C2 witness: start on a concrete running controller is the identity. -/
theorem c2_single_loop_task_witness :
    applyCmd LifecycleCmd.start { status := BotStatus.running, loopTasks := 1 } =
      ({ status := BotStatus.running, loopTasks := 1 } : ControllerState) :=
  c2_single_loop_task.2 _ rfl

/-- From STOPPED, a command sequence without start keeps the bot STOPPED. -/
theorem no_start_keeps_stopped (cmds : List LifecycleCmd) :
    ∀ c : ControllerState, c.status = BotStatus.stopped →
      LifecycleCmd.start ∉ cmds → (applyCmds cmds c).status = BotStatus.stopped := by
  induction cmds with
  | nil => exact fun _ h _ => h
  | cons cmd rest ih =>
    intro c h hnot
    have hcmd : cmd ≠ LifecycleCmd.start := by
      intro e
      exact hnot (by simp [e])
    have hstep : (applyCmd cmd c).status = BotStatus.stopped := by
      cases cmd with
      | start => exact absurd rfl hcmd
      | stop => simp [applyCmd, h]
      | pause => simp [applyCmd, h]
      | resume => simp [applyCmd, h]
    exact ih _ hstep (fun hm => hnot (List.mem_cons_of_mem _ hm))

/-- C1: after a restart every reconstructed bot is STOPPED, no command
sequence without an explicit start can bring a reconstructed bot to
RUNNING, and an explicit start does resume it. -/
theorem c1_restart_never_auto_resumes (ps : List PersistedBot) :
    (∀ e ∈ registryRestart ps, e.2.status = BotStatus.stopped) ∧
    (∀ e ∈ registryRestart ps, ∀ cmds : List LifecycleCmd,
      LifecycleCmd.start ∉ cmds → (applyCmds cmds e.2).status ≠ BotStatus.running) ∧
    (∀ p : PersistedBot,
      (applyCmd LifecycleCmd.start (reconstructController p)).status = BotStatus.running) := by
  refine ⟨?_, ?_, fun p => rfl⟩
  · intro e he
    simp only [registryRestart, List.mem_map] at he
    obtain ⟨p, _, rfl⟩ := he
    rfl
  · intro e he cmds hnot
    simp only [registryRestart, List.mem_map] at he
    obtain ⟨p, _, rfl⟩ := he
    have h := no_start_keeps_stopped cmds (reconstructController p) rfl hnot
    simp [h]

/-- A persisted bot that was RUNNING at its last checkpoint. -/
def samplePersistedBot : PersistedBot :=
  { botId := "bot-1", lastStatus := BotStatus.running }

/-- C1 witness: the reconstructed bot-1 is stopped, and stop and pause
commands alone never bring it to RUNNING. -/
theorem c1_restart_never_auto_resumes_witness :
    (("bot-1", reconstructController samplePersistedBot) : String × ControllerState).2.status
        = BotStatus.stopped ∧
    (applyCmds [LifecycleCmd.stop, LifecycleCmd.pause]
        (("bot-1", reconstructController samplePersistedBot) : String × ControllerState).2).status
        ≠ BotStatus.running := by
  have h := c1_restart_never_auto_resumes [samplePersistedBot]
  refine ⟨h.1 _ ?_, h.2.1 _ ?_ [LifecycleCmd.stop, LifecycleCmd.pause] (by decide)⟩
  · simp [registryRestart, samplePersistedBot]
  · simp [registryRestart, samplePersistedBot]

/-- Each drawdown value is clamped to be nonnegative. -/
theorem drawdown_nonneg (peak equity : ℚ) : 0 ≤ drawdown peak equity :=
  le_max_left 0 _

/-- C6: along every equity history the reported drawdown is never
negative, and the high-water mark is monotonically non-decreasing. -/
theorem c6_drawdown_clamped_peak_monotone (peak0 : ℚ) (history : List ℚ) :
    (∀ d ∈ drawdownSeries peak0 history, 0 ≤ d) ∧
    List.Chain (· ≤ ·) peak0 (equityPeaks peak0 history) := by
  constructor
  · induction history generalizing peak0 with
    | nil => intro d hd; simp [drawdownSeries] at hd
    | cons e rest ih =>
      intro d hd
      rcases (List.mem_cons.mp hd) with h | h
      · exact h ▸ drawdown_nonneg _ _
      · exact ih _ d h
  · induction history generalizing peak0 with
    | nil => exact List.Chain.nil
    | cons e rest ih =>
      exact List.Chain.cons (le_max_left peak0 e) (ih _)

/-- C6 witness: the drawdown at the second point of a concrete history. -/
theorem c6_drawdown_clamped_witness :
    (0 : ℚ) ≤ drawdown (updatedPeak (updatedPeak 100 120) 90) 90 :=
  (c6_drawdown_clamped_peak_monotone 100 [120, 90]).1 _ (by simp [drawdownSeries])

/-- C7: the paper gateway either fully fills within the slippage bound of
the latest known price, or rejects; a partial fill never occurs. -/
theorem c7_paper_full_fill_or_reject (lastPrice slippage feeRate : ℚ) (o : PaperOrder)
    (hp : 0 ≤ lastPrice) (hs : 0 ≤ slippage) :
    ((paperSubmit lastPrice slippage feeRate o).status = OrderStatus.filled ∨
      (paperSubmit lastPrice slippage feeRate o).status = OrderStatus.rejected) ∧
    (paperSubmit lastPrice slippage feeRate o).status ≠ OrderStatus.partialFill ∧
    ((paperSubmit lastPrice slippage feeRate o).status = OrderStatus.filled →
      |(paperSubmit lastPrice slippage feeRate o).fillPrice - lastPrice| ≤ slippage * lastPrice ∧
      (paperSubmit lastPrice slippage feeRate o).filledSize = o.requestedSize) := by
  rcases le_or_lt o.requestedSize 0 with hsz | hsz
  · simp [paperSubmit, hsz]
  · have hsz2 : ¬ o.requestedSize ≤ 0 := not_le.mpr hsz
    cases hside : o.side
    · have habs : |lastPrice * (1 + slippage) - lastPrice| = slippage * lastPrice := by
        have he : lastPrice * (1 + slippage) - lastPrice = slippage * lastPrice := by ring
        rw [he, abs_of_nonneg (mul_nonneg hs hp)]
      simp [paperSubmit, hsz2, hside, habs]
    · have habs : |lastPrice * (1 - slippage) - lastPrice| = slippage * lastPrice := by
        have he : lastPrice * (1 - slippage) - lastPrice = -(slippage * lastPrice) := by ring
        rw [he, abs_neg, abs_of_nonneg (mul_nonneg hs hp)]
      simp [paperSubmit, hsz2, hside, habs]

/-- A concrete order used to evaluate the paper gateway. -/
def sampleOrder : PaperOrder :=
  { symbol := "BTC-USD", side := OrderSide.buy, requestedSize := 2 }

/-- C7 witness: the paper gateway evaluated at a concrete price, slippage,
fee and order. -/
theorem c7_paper_full_fill_or_reject_witness :
    ((paperSubmit 100 1 2 sampleOrder).status = OrderStatus.filled ∨
      (paperSubmit 100 1 2 sampleOrder).status = OrderStatus.rejected) ∧
    (paperSubmit 100 1 2 sampleOrder).status ≠ OrderStatus.partialFill ∧
    ((paperSubmit 100 1 2 sampleOrder).status = OrderStatus.filled →
      |(paperSubmit 100 1 2 sampleOrder).fillPrice - 100| ≤ 1 * 100 ∧
      (paperSubmit 100 1 2 sampleOrder).filledSize = sampleOrder.requestedSize) :=
  c7_paper_full_fill_or_reject 100 1 2 sampleOrder (by norm_num) (by norm_num)

end AnalyticalPunch
